import Mathlib

set_option linter.unusedVariables false

/-!
Shallow embedding of the GPU-driven scene submission core of the
`physics_renderer` repository, translated from
`source/engine/systems/render_system/render_system.cpp` together with the
scene registry types it manipulates (`source/engine/scene/scene.hpp`,
`source/engine/object/object.hpp`).

Modelling conventions used throughout:
* `Scene::objects` and `Scene::models` are `unordered_map`s keyed by an id;
  ids are handed out consecutively from `0` by the respective factories
  (`Object::createObject` uses a monotonically increasing counter, and the
  scene registry stores each entity under its own id).  Under the running
  configuration the key set is therefore exactly `0 .. size-1`, so each map is
  embedded as a `List` whose `i`-th entry is the entity with id `i`; a map
  lookup `at(k)` becomes the partial list lookup `l[k]?`, and `getId` of the
  `i`-th entry is `i`.
* a thrown `std::out_of_range` (a failing `at`) is modelled by `none`;
* `glm` float data (vectors, matrices) is never computed with by the code the
  claims cover, so vectors are kept as abstract integer triples and the matrix
  constructors `TransformComponent::mat4` / `normalMatrix` are uninterpreted
  symbolic constructors.
-/

/-- Stand-in for a three-component `glm::vec3`; the coordinates are opaque to
every claim, so integers replace floats. -/
structure Vec3 where
  x : Int
  y : Int
  z : Int
deriving DecidableEq, Repr

/-- `TransformComponent` from `object.hpp`: translation, scale, rotation. -/
structure TransformComponent where
  translation : Vec3
  scale : Vec3
  rotation : Vec3
deriving DecidableEq, Repr

/-- Symbolic `glm::mat4`: `TransformComponent::mat4()` is float matrix
arithmetic, left uninterpreted and represented by the transform it came
from. -/
inductive Mat4 where
  | identity : Mat4
  | ofTransform : TransformComponent → Mat4
deriving DecidableEq, Repr

/-- Symbolic `glm::mat3` produced by `TransformComponent::normalMatrix()`. -/
inductive Mat3 where
  | identity : Mat3
  | normalOfTransform : TransformComponent → Mat3
deriving DecidableEq, Repr

/-- `TransformComponent::mat4()` — model matrix, kept symbolic. -/
def TransformComponent.mat4 (t : TransformComponent) : Mat4 :=
  Mat4.ofTransform t

/-- `TransformComponent::normalMatrix()` — normal matrix, kept symbolic. -/
def TransformComponent.normalMatrix (t : TransformComponent) : Mat3 :=
  Mat3.normalOfTransform t

/-- `Object::ObjectInfo` as used by `render_system.cpp`: the ids of the
referenced model and diffuse texture plus the cached model/normal matrices
(the fields written in `RenderSystem::setupScene` and staged per object in
`RenderSystem::updateSceneUniform`). -/
structure ObjectInfo where
  modelId : Nat
  diffuseId : Nat
  modelMatrix : Mat4
  normalMatrix : Mat3
deriving DecidableEq, Repr

/-- `Object`: its `objectInfo` and `transform`; the object's `id` is its
position in the embedded list (see the module conventions). -/
structure Object where
  objectInfo : ObjectInfo
  transform : TransformComponent
deriving DecidableEq, Repr

/-- `Model` as seen through the render system: `getVertices`, `getIndices`,
`getVertexCount = vertices.size()`, `getIndexCount = indices.size()`.  A
vertex is an opaque token; the model's id is its position in the embedded
list. -/
structure Model where
  vertices : List Nat
  indices : List Nat
deriving DecidableEq, Repr

/-- `VkDrawIndexedIndirectCommand`, fields in Vulkan declaration order. -/
structure VkDrawIndexedIndirectCommand where
  indexCount : Nat
  instanceCount : Nat
  firstIndex : Nat
  vertexOffset : Int
  firstInstance : Nat
deriving DecidableEq, Repr

/-- The inner loop of `RenderSystem::createDrawIndirectCommands`: the number
of objects whose `objectInfo.modelId` equals `scene.models.at(i)->getId()`,
which is `i` (the map stores each model under its own id). -/
def instanceCountFor (objects : List Object) (i : Nat) : Nat :=
  objects.countP (fun o => o.objectInfo.modelId == i)

/-- Body of the `for i` loop of `RenderSystem::createDrawIndirectCommands`:
`firstIndex = 0`, `instanceCount` = number of objects using model `i`,
`firstInstance = i`, `vertexOffset = 0`, and `indexCount =
scene.models.at(scene.objects.at(i).objectInfo.modelId)->getIndexCount()`.
Either `at` lookup throws (`none`) when the key is absent. -/
def buildCommand (models : List Model) (objects : List Object) (i : Nat) :
    Option VkDrawIndexedIndirectCommand :=
  match objects[i]? with
  | none => none
  | some obj =>
    match models[obj.objectInfo.modelId]? with
    | none => none
    | some m =>
      some { indexCount := m.indices.length
             instanceCount := instanceCountFor objects i
             firstIndex := 0
             vertexOffset := 0
             firstInstance := i }

/-- The aggregation loop of `RenderSystem::createDrawIndirectCommands`,
iterated over the remaining model indices `is`; fails as soon as one
iteration throws. -/
def buildCommands (models : List Model) (objects : List Object) :
    List Nat → Option (List VkDrawIndexedIndirectCommand)
  | [] => some []
  | i :: rest =>
    match buildCommand models objects i, buildCommands models objects rest with
    | some c, some cs => some (c :: cs)
    | _, _ => none

/-- `RenderSystem::createDrawIndirectCommands`: one loop iteration per entry
of `scene.models` (indices `0 .. models.length - 1`), pushing one command per
model and accumulating `totalInstanceCount`; returns the command list together
with the total, or `none` when an `at` lookup throws. -/
def createDrawIndirectCommands (models : List Model) (objects : List Object) :
    Option (List VkDrawIndexedIndirectCommand × Nat) :=
  match buildCommands models objects (List.range models.length) with
  | none => none
  | some cmds => some (cmds, (cmds.map (fun c => c.instanceCount)).sum)

/-- `RenderSystem::createVertexBuffer` merges every model's vertex list in
model order; `totalVertexCount` is the merged length. -/
def mergedVertices (models : List Model) : List Nat :=
  (models.map (fun m => m.vertices)).flatten

/-- `RenderSystem::createVertexBuffer`: when `totalVertexCount == 0` the
function returns before creating the buffer (`none`, i.e. `globalVertexBuffer`
stays null); otherwise the device-local buffer holds the merged vertices.
(The development-build `assert(totalVertexCount >= 3)` concerns only the
1-or-2 vertex case, which no claim touches.) -/
def createVertexBuffer (models : List Model) : Option (List Nat) :=
  if (mergedVertices models).length = 0 then none
  else some (mergedVertices models)

/-- `RenderSystem::createIndexBuffer` merges every model's index list in model
order (models with zero indices contribute nothing either way). -/
def mergedIndices (models : List Model) : List Nat :=
  (models.map (fun m => m.indices)).flatten

/-- `RenderSystem::createIndexBuffer`: when `totalIndexCount == 0` the
function returns before creating the buffer (`none`). -/
def createIndexBuffer (models : List Model) : Option (List Nat) :=
  if (mergedIndices models).length = 0 then none
  else some (mergedIndices models)

/-- Width of `size_t` (64 bits): the bitwise complement in
`RenderSystem::padUniformBufferSize` is taken at this width, so
`~(a - 1) = 2^64 - a` for `a ≥ 1`. -/
def SIZE_T_MOD : Nat := 2 ^ 64

/-- `RenderSystem::padUniformBufferSize`: `alignedSize = originalSize`, and
when `minUboAlignment > 0`,
`alignedSize = (alignedSize + minUboAlignment - 1) & ~(minUboAlignment - 1)`
in 64-bit `size_t` arithmetic. -/
def padUniformBufferSize (minUboAlignment originalSize : Nat) : Nat :=
  if 0 < minUboAlignment then
    (originalSize + minUboAlignment - 1) &&& (SIZE_T_MOD - minUboAlignment)
  else originalSize

/-- The Vulkan descriptor types occurring in `RenderSystem::setupDescriptorSets`. -/
inductive VkDescriptorType where
  | storageBuffer : VkDescriptorType
  | uniformBuffer : VkDescriptorType
  | sampler : VkDescriptorType
  | sampledImage : VkDescriptorType
deriving DecidableEq, Repr

/-- One `DescriptorPool::addPoolSize` entry. -/
structure PoolSize where
  type : VkDescriptorType
  descriptorCount : Nat
deriving DecidableEq, Repr

/-- One `DescriptorSetLayout::addBinding` entry
(`addBinding(count, type, stageFlags, binding)`). -/
structure LayoutBinding where
  descriptorCount : Nat
  type : VkDescriptorType
  binding : Nat
deriving DecidableEq, Repr

/-- Result of `RenderSystem::setupDescriptorSets`: the pool configuration,
the two set layouts, and the number of descriptor sets actually allocated via
`DescriptorPool::addNewSets`. -/
structure DescriptorSetup where
  poolSizes : List PoolSize
  maxSets : Nat
  renderBindings : List LayoutBinding
  cullBindings : List LayoutBinding
  allocatedSetCount : Nat
deriving DecidableEq, Repr

/-- Modelled from the spec: `SwapChain::MAX_FRAMES_IN_FLIGHT` is declared in
swap-chain code that is not among these sources.  The spec's frame-slot model
(double/triple buffering) together with the render system's own comment in
`createDrawIndirectCommands` ("2 buffers are need for double-buffering") fixes
it at `2`. -/
def MAX_FRAMES_IN_FLIGHT : Nat := 2

/-- `RenderSystem::setupDescriptorSets` for a scene with `textureCount`
textures: `descriptorCount = 2 * MAX_FRAMES_IN_FLIGHT`; five pool sizes (the
sampled-image one sized `textureCount * descriptorCount`); the render layout's
binding 3 declared with `textureCount` sampled images; and `2 + 2` sets
allocated by the two `addNewSets(_, _, 2)` calls. -/
def setupDescriptorSets (textureCount : Nat) : DescriptorSetup :=
  let descriptorCount := 2 * MAX_FRAMES_IN_FLIGHT
  { poolSizes := [⟨VkDescriptorType.storageBuffer, descriptorCount⟩,
                  ⟨VkDescriptorType.uniformBuffer, descriptorCount⟩,
                  ⟨VkDescriptorType.storageBuffer, descriptorCount⟩,
                  ⟨VkDescriptorType.sampler, descriptorCount⟩,
                  ⟨VkDescriptorType.sampledImage, textureCount * descriptorCount⟩]
    maxSets := descriptorCount
    renderBindings := [⟨1, VkDescriptorType.uniformBuffer, 0⟩,
                       ⟨1, VkDescriptorType.storageBuffer, 1⟩,
                       ⟨1, VkDescriptorType.sampler, 2⟩,
                       ⟨textureCount, VkDescriptorType.sampledImage, 3⟩]
    cullBindings := [⟨1, VkDescriptorType.uniformBuffer, 0⟩,
                     ⟨1, VkDescriptorType.storageBuffer, 1⟩,
                     ⟨1, VkDescriptorType.storageBuffer, 2⟩]
    allocatedSetCount := 2 + 2 }

/-- Total capacity a pool declares for one descriptor type (sum of the
matching `addPoolSize` entries). -/
def poolCapacity (s : DescriptorSetup) (t : VkDescriptorType) : Nat :=
  ((s.poolSizes.filter (fun p => p.type == t)).map (fun p => p.descriptorCount)).sum

/-- Axis-aligned bounding volume (`BoundingBox` in the camera interface),
kept abstract. -/
structure BoundingBox where
  lo : Vec3
  hi : Vec3
deriving DecidableEq, Repr

/-- `Scene::SceneUniform` as written by `RenderSystem::updateSceneUniform`. -/
structure SceneUniform where
  projection : Mat4
  view : Mat4
  inverseView : Mat4
  viewBoundingBox : BoundingBox
  enableOcclusionCulling : Bool
  enableFrustumCulling : Bool
  instanceCount : Nat
deriving DecidableEq, Repr

/-- The camera interface consumed by `updateSceneUniform`: `getProjection`,
`getView`, `getInverseView`, `enableFrustumCulling`,
`createFrustumViewBounds`. -/
structure Camera where
  projection : Mat4
  view : Mat4
  inverseView : Mat4
  enableFrustumCulling : Bool
  frustumViewBounds : BoundingBox
deriving DecidableEq, Repr

/-- The record staged in `updateSceneUniform`'s object loop for the object
with id `i`: the code assigns `objectInfo.diffuseId = obj.getId()` and
`objectInfo.modelId = obj.getId()` — the object's own id — followed by the
current transform matrices. -/
def stagedObjectInfo (i : Nat) (obj : Object) : ObjectInfo :=
  { modelId := i
    diffuseId := i
    modelMatrix := obj.transform.mat4
    normalMatrix := obj.transform.normalMatrix }

/-- Contents written into the frame-slot's per-object buffer by the loop at
the end of `updateSceneUniform`: one staged record per object, at offset
`objectInfoDynamicAlignment * i`; `scene.objects.at(i)` selects the object
with id `i`, i.e. the `i`-th list entry. -/
def writtenObjectRecords (objects : List Object) : List ObjectInfo :=
  objects.enum.map (fun p => stagedObjectInfo p.1 p.2)

/-- The members of `RenderSystem` (and the `scene.sceneUniform` staging field)
that `updateSceneUniform` can reach: the per-frame-slot uniform and
per-object buffers, and the shared vertex/index/indirect-command resources. -/
structure RenderSystemState where
  sceneUniform : SceneUniform
  totalInstanceCount : Nat
  sceneUniformBuffers : List SceneUniform
  objectInfoBuffers : List (List ObjectInfo)
  globalVertexBuffer : Option (List Nat)
  globalIndexBuffer : Option (List Nat)
  indirectCommandsBuffers : List (List VkDrawIndexedIndirectCommand)
deriving DecidableEq, Repr

/-- `RenderSystem::updateSceneUniform(camera, frameIndex)`: rebuilds
`scene.sceneUniform` from the camera (keeping the previous `viewBoundingBox`
when frustum culling is disabled, and forcing `enableOcclusionCulling =
false`), writes it to `sceneUniformBuffers[frameIndex]`, then writes every
object's staged record into `objectInfoBuffers[frameIndex]`.  No other member
is touched. -/
def updateSceneUniform (st : RenderSystemState) (objects : List Object)
    (camera : Camera) (frameIndex : Nat) : RenderSystemState :=
  let u : SceneUniform :=
    { projection := camera.projection
      view := camera.view
      inverseView := camera.inverseView
      viewBoundingBox :=
        if camera.enableFrustumCulling then camera.frustumViewBounds
        else st.sceneUniform.viewBoundingBox
      enableOcclusionCulling := false
      enableFrustumCulling := camera.enableFrustumCulling
      instanceCount := st.totalInstanceCount }
  { st with
      sceneUniform := u
      sceneUniformBuffers := st.sceneUniformBuffers.set frameIndex u
      objectInfoBuffers :=
        st.objectInfoBuffers.set frameIndex (writtenObjectRecords objects) }

/-- Commands recorded into a `VkCommandBuffer` by `drawScene`/`cullScene`. -/
inductive GpuCommand where
  | bindGraphicsPipeline : GpuCommand
  | bindComputePipeline : GpuCommand
  | bindDescriptorSet : Nat → GpuCommand
  | bindVertexBuffer : Nat → GpuCommand
  | bindIndexBuffer : GpuCommand
  | drawIndexedIndirect : Nat → GpuCommand
  | dispatch : Nat → GpuCommand
deriving DecidableEq, Repr

/-- `RenderSystem::drawScene`: binds the graphics pipeline, descriptor set
`frameIndex`, vertex buffers at bindings 0 and 1, the index buffer, then
unconditionally records `vkCmdDrawIndexedIndirect` with `drawCount =
indirectCommands.size()`.  `globalVertexBuffer->getBuffer()` and
`globalIndexBuffer->getBuffer()` dereference a null `unique_ptr` (`none`)
when the corresponding buffer was never created. -/
def drawScene (vertexBuffer indexBuffer : Option (List Nat))
    (numIndirectCommands frameIndex : Nat) : Option (List GpuCommand) :=
  match vertexBuffer, indexBuffer with
  | some _, some _ =>
    some [GpuCommand.bindGraphicsPipeline,
          GpuCommand.bindDescriptorSet frameIndex,
          GpuCommand.bindVertexBuffer 0,
          GpuCommand.bindVertexBuffer 1,
          GpuCommand.bindIndexBuffer,
          GpuCommand.drawIndexedIndirect numIndirectCommands]
  | _, _ => none

/-- `RenderSystem::cullScene`: the work-group count of the compute dispatch,
`indirectCommands.size() / 64` (C++ unsigned integer division truncates). -/
def cullDispatchGroups (numIndirectCommands : Nat) : Nat :=
  numIndirectCommands / 64

/-- `RenderSystem::cullScene`: the index of the frame's cull descriptor set,
`(frameIndex + SwapChain::MAX_FRAMES_IN_FLIGHT) * 1`. -/
def cullSetIndex (frameIndex : Nat) : Nat :=
  (frameIndex + MAX_FRAMES_IN_FLIGHT) * 1

/-- `RenderSystem::cullScene`: binds the compute pipeline and the frame's cull
descriptor set, then records the dispatch. -/
def cullScene (numIndirectCommands frameIndex : Nat) : List GpuCommand :=
  [GpuCommand.bindComputePipeline,
   GpuCommand.bindDescriptorSet (cullSetIndex frameIndex),
   GpuCommand.dispatch (cullDispatchGroups numIndirectCommands)]

/-- Specification-side dispatch size for comparison with the code:
`ceil(workloadSize / localGroupSize)` with the shader-side local group size 64
(spec §4.4). -/
def specDispatchGroups (workloadSize : Nat) : Nat :=
  (workloadSize + 64 - 1) / 64

/-- A fixed identity transform used by the concrete test scenes. -/
def t0 : TransformComponent :=
  { translation := ⟨0, 0, 0⟩, scale := ⟨1, 1, 1⟩, rotation := ⟨0, 0, 0⟩ }

/-- An object referencing model `modelId` and diffuse texture `diffuseId`. -/
def mkObject (modelId diffuseId : Nat) : Object :=
  { objectInfo := { modelId := modelId
                    diffuseId := diffuseId
                    modelMatrix := Mat4.identity
                    normalMatrix := Mat3.identity }
    transform := t0 }

/-- A model with 3 vertices and 3 indices. -/
def modelA : Model := { vertices := [0, 1, 2], indices := [0, 1, 2] }

/-- A model with 4 vertices and 6 indices. -/
def modelB : Model := { vertices := [3, 4, 5, 6], indices := [0, 1, 2, 0, 2, 3] }

/-- Model set with one model. -/
def modelsOne : List Model := [modelA]

/-- Model set with two models of different index counts. -/
def modelsTwo : List Model := [modelA, modelB]

/-- One object referencing model 0 (the repository's own scene shape). -/
def objectsOne : List Object := [mkObject 0 0]

/-- Two objects both referencing model 0. -/
def objectsBothModelZero : List Object := [mkObject 0 0, mkObject 0 0]

/-- Two objects: object 0 references model 1, object 1 references model 0. -/
def objectsSwapped : List Object := [mkObject 1 1, mkObject 0 0]

/-- A concrete scene uniform used by the sample render-system state. -/
def sampleUniform : SceneUniform :=
  { projection := Mat4.identity
    view := Mat4.identity
    inverseView := Mat4.identity
    viewBoundingBox := ⟨⟨0, 0, 0⟩, ⟨0, 0, 0⟩⟩
    enableOcclusionCulling := false
    enableFrustumCulling := false
    instanceCount := 0 }

/-- A concrete camera with frustum culling enabled. -/
def sampleCamera : Camera :=
  { projection := Mat4.identity
    view := Mat4.identity
    inverseView := Mat4.identity
    enableFrustumCulling := true
    frustumViewBounds := ⟨⟨0, 0, 0⟩, ⟨1, 1, 1⟩⟩ }

/-- A concrete double-buffered render-system state. -/
def sampleState : RenderSystemState :=
  { sceneUniform := sampleUniform
    totalInstanceCount := 1
    sceneUniformBuffers := [sampleUniform, sampleUniform]
    objectInfoBuffers := [[], []]
    globalVertexBuffer := some [0, 1, 2]
    globalIndexBuffer := some [0, 1, 2]
    indirectCommandsBuffers := [[], []] }

theorem buildCommand_eq_some (models : List Model) (objects : List Object) (i : Nat)
    (c : VkDrawIndexedIndirectCommand) (h : buildCommand models objects i = some c) :
    c.instanceCount = instanceCountFor objects i ∧ c.firstInstance = i := by
  unfold buildCommand at h
  split at h
  · simp at h
  · split at h
    · simp at h
    · simp only [Option.some.injEq] at h
      subst h
      exact ⟨rfl, rfl⟩

theorem buildCommands_map_instanceCount (models : List Model) (objects : List Object) :
    ∀ (is : List Nat) (cs : List VkDrawIndexedIndirectCommand),
      buildCommands models objects is = some cs →
      cs.map (fun c => c.instanceCount) = is.map (fun i => instanceCountFor objects i) := by
  intro is
  induction is with
  | nil =>
    intro cs h
    simp only [buildCommands, Option.some.injEq] at h
    subst h
    simp
  | cons i rest ih =>
    intro cs h
    unfold buildCommands at h
    cases hb : buildCommand models objects i with
    | none => rw [hb] at h; simp at h
    | some c =>
      rw [hb] at h
      cases hr : buildCommands models objects rest with
      | none => rw [hr] at h; simp at h
      | some cs2 =>
        rw [hr] at h
        simp only [Option.some.injEq] at h
        subst h
        simp only [List.map_cons]
        rw [(buildCommand_eq_some models objects i c hb).1, ih cs2 hr]

theorem listSum_map_add {α : Type} (f g : α → Nat) :
    ∀ (l : List α), (l.map (fun a => f a + g a)).sum = (l.map f).sum + (l.map g).sum := by
  intro l
  induction l with
  | nil => simp
  | cons a l ih =>
    simp only [List.map_cons, List.sum_cons, ih]
    omega

theorem listSum_indicator_of_notMem (m : Nat) :
    ∀ (l : List Nat), m ∉ l → (l.map (fun i => if m == i then 1 else 0)).sum = 0 := by
  intro l
  induction l with
  | nil => intro _; simp
  | cons a l ih =>
    intro hm
    have ha : (m == a) = false := by
      simp only [beq_eq_false_iff_ne]
      intro he
      exact hm (by rw [he]; exact List.mem_cons_self a l)
    simp only [List.map_cons, List.sum_cons, ha, if_false, Bool.false_eq_true]
    have hrest : m ∉ l := fun h => hm (List.mem_cons_of_mem a h)
    rw [ih hrest]

theorem listSum_indicator_range (m n : Nat) (h : m < n) :
    ((List.range n).map (fun i => if m == i then 1 else 0)).sum = 1 := by
  induction n with
  | zero => omega
  | succ n ih =>
    rw [List.range_succ, List.map_append, List.sum_append]
    by_cases hm : m < n
    · rw [ih hm]
      have hne : (m == n) = false := by
        simp only [beq_eq_false_iff_ne]
        omega
      simp [hne]
      all_goals omega
    · have hmn : m = n := by omega
      subst hmn
      rw [listSum_indicator_of_notMem m (List.range m) (by simp [List.mem_range])]
      simp

theorem countP_range_sum (n : Nat) :
    ∀ (objects : List Object), (∀ o ∈ objects, o.objectInfo.modelId < n) →
      ((List.range n).map (fun i => instanceCountFor objects i)).sum = objects.length := by
  intro objects
  induction objects with
  | nil => intro _; simp [instanceCountFor]
  | cons o os ih =>
    intro hv
    have hstep : (fun i => instanceCountFor (o :: os) i) =
        (fun i => instanceCountFor os i +
          if (o.objectInfo.modelId == i) then 1 else 0) := by
      funext i
      simp [instanceCountFor, List.countP_cons]
    rw [hstep, listSum_map_add]
    rw [ih (fun x hx => hv x (List.mem_cons_of_mem _ hx))]
    rw [listSum_indicator_range o.objectInfo.modelId n (hv o (List.mem_cons_self _ _))]
    simp

/-- C2: for every non-empty object set whose objects all reference models
present in the model set, immediately after aggregation
(`createDrawIndirectCommands` completing, before any culling) the sum of the
`instanceCount` fields over all emitted indirect draw commands equals the
number of live objects. -/
theorem C2_aggregation_sum_eq_live_objects (models : List Model) (objects : List Object)
    (cmds : List VkDrawIndexedIndirectCommand) (total : Nat)
    (hne : objects ≠ [])
    (hvalid : ∀ o ∈ objects, o.objectInfo.modelId < models.length)
    (hagg : createDrawIndirectCommands models objects = some (cmds, total)) :
    (cmds.map (fun c => c.instanceCount)).sum = objects.length := by
  unfold createDrawIndirectCommands at hagg
  cases hb : buildCommands models objects (List.range models.length) with
  | none => rw [hb] at hagg; simp at hagg
  | some cs =>
    rw [hb] at hagg
    simp only [Option.some.injEq, Prod.mk.injEq] at hagg
    obtain ⟨h1, h2⟩ := hagg
    subst h1
    rw [buildCommands_map_instanceCount models objects _ cs hb]
    exact countP_range_sum models.length objects hvalid

/-- Witness for C2 at the one-model, one-object scene. -/
theorem C2_aggregation_sum_witness :
    objectsOne ≠ [] ∧
    (∀ o ∈ objectsOne, o.objectInfo.modelId < modelsOne.length) ∧
    (([{ indexCount := 3, instanceCount := 1, firstIndex := 0, vertexOffset := 0,
         firstInstance := 0 }] : List VkDrawIndexedIndirectCommand).map
        (fun c => c.instanceCount)).sum = objectsOne.length :=
  ⟨by decide, by decide,
    C2_aggregation_sum_eq_live_objects modelsOne objectsOne
      [{ indexCount := 3, instanceCount := 1, firstIndex := 0, vertexOffset := 0,
         firstInstance := 0 }] 1 (by decide) (by decide) (by decide)⟩

/-- C1: the claim fails on the code (code bug).  With two models and two
objects both instantiating model 0, the command emitted for the second model
(`k = 1`) has `firstInstance = 1` — the model's loop index `i` from line 143 —
while the sum of the instance counts of the commands preceding it is `2`.
The evaluation exhibits the per-command `(instanceCount, firstInstance)`
pairs `[(2, 0), (0, 1)]`: the `firstInstance` ranges overlap instead of
partitioning the instances. -/
theorem C1_firstInstance_is_model_index_not_running_sum :
    (createDrawIndirectCommands modelsTwo objectsBothModelZero).map
        (fun p => p.1.map (fun c => (c.instanceCount, c.firstInstance))) =
      some [(2, 0), (0, 1)] := by decide

/-- C4 counterexample: with two models of which only model 0 is referenced
(by both objects), the aggregator emits two commands — the second being a
zero-instance command for the unreferenced model — whereas the claim requires
a single command and no zero-instance entries. -/
theorem C4_counterexample_zero_instance_command :
    (createDrawIndirectCommands modelsTwo objectsBothModelZero).map
        (fun p => (p.1.length, p.1.map (fun c => c.instanceCount))) =
      some (2, [2, 0]) := by decide

/-- C4 amended: whenever aggregation completes, the aggregator emits exactly
one command per model of the model set — in model-id order, whether or not
any object references it — and the `k`-th command's `instanceCount` is the
number of objects referencing model `k` (possibly zero). -/
theorem C4_amended_one_command_per_model (models : List Model) (objects : List Object)
    (cmds : List VkDrawIndexedIndirectCommand) (total : Nat)
    (hagg : createDrawIndirectCommands models objects = some (cmds, total)) :
    cmds.length = models.length ∧
    cmds.map (fun c => c.instanceCount) =
      (List.range models.length).map (fun i => instanceCountFor objects i) := by
  unfold createDrawIndirectCommands at hagg
  cases hb : buildCommands models objects (List.range models.length) with
  | none => rw [hb] at hagg; simp at hagg
  | some cs =>
    rw [hb] at hagg
    simp only [Option.some.injEq, Prod.mk.injEq] at hagg
    obtain ⟨h1, h2⟩ := hagg
    subst h1
    have hmap := buildCommands_map_instanceCount models objects _ cs hb
    refine ⟨?_, hmap⟩
    have hlen := congrArg List.length hmap
    simpa using hlen

/-- Witness for the amended C4 at a concrete scene. -/
theorem C4_amended_witness :
    ([{ indexCount := 3, instanceCount := 2, firstIndex := 0, vertexOffset := 0,
        firstInstance := 0 },
      { indexCount := 3, instanceCount := 0, firstIndex := 0, vertexOffset := 0,
        firstInstance := 1 }] : List VkDrawIndexedIndirectCommand).length =
      modelsTwo.length ∧
    ([{ indexCount := 3, instanceCount := 2, firstIndex := 0, vertexOffset := 0,
        firstInstance := 0 },
      { indexCount := 3, instanceCount := 0, firstIndex := 0, vertexOffset := 0,
        firstInstance := 1 }] : List VkDrawIndexedIndirectCommand).map
        (fun c => c.instanceCount) =
      (List.range modelsTwo.length).map (fun i => instanceCountFor objectsBothModelZero i) :=
  C4_amended_one_command_per_model modelsTwo objectsBothModelZero
    [{ indexCount := 3, instanceCount := 2, firstIndex := 0, vertexOffset := 0,
       firstInstance := 0 },
     { indexCount := 3, instanceCount := 0, firstIndex := 0, vertexOffset := 0,
       firstInstance := 1 }] 2 (by decide)

/-- C5: the claim fails on the code (code bug).  Line 145 computes
`indexCount` as
`scene.models.at(scene.objects.at(i).objectInfo.modelId)->getIndexCount()` —
it indexes the objects by the model loop index `i` and follows that object's
model reference — instead of `scene.models.at(i)->getIndexCount()` as the
line's own comment ("Number of indices the unique model has") describes.
First conjunct: with object 0 referencing model 1 and object 1 referencing
model 0, the command for model 0 carries model 1's index count 6 (model 0
has 3) and vice versa.  Last conjunct: with the repository's own scene shape
(two models, one object) the lookup `objects.at(1)` throws, aborting
aggregation. -/
theorem C5_indexCount_taken_from_wrong_model :
    createDrawIndirectCommands modelsTwo objectsSwapped =
      some ([{ indexCount := 6, instanceCount := 1, firstIndex := 0, vertexOffset := 0,
               firstInstance := 0 },
             { indexCount := 3, instanceCount := 1, firstIndex := 0, vertexOffset := 0,
               firstInstance := 1 }], 2) ∧
    modelA.indices.length = 3 ∧ modelB.indices.length = 6 ∧
    createDrawIndirectCommands modelsTwo objectsOne = none := by decide

/-- C3: the claim fails on the code (code bug).  `cullScene` dispatches
`indirectCommands.size() / 64` work groups — C++ integer division, i.e.
floor, of the command count — not `ceil(workloadSize / 64)`.  With the
repository's own two models there are two indirect commands: zero groups are
dispatched (the cull shader never runs at all), while the specified count is
`ceil(2 / 64) = 1`. -/
theorem C3_dispatch_is_floor_not_ceil :
    cullDispatchGroups 2 = 0 ∧ specDispatchGroups 2 = 1 ∧
    cullScene 2 0 = [GpuCommand.bindComputePipeline, GpuCommand.bindDescriptorSet 2,
                     GpuCommand.dispatch 0] := by decide

/-- C6: the claim fails on the code (code bug).  `updateSceneUniform` stages
`objectInfo.diffuseId = obj.getId()` and `objectInfo.modelId = obj.getId()`
(lines 325-326): the per-instance record carries the object's own id in both
fields, not the referenced model/texture ids kept in the object's
`objectInfo` (which `setupScene` populates, per the field names' meaning).
Here object 0 references model 1 and diffuse texture 1, yet the record
written to the frame-slot's instance buffer carries `modelId = diffuseId =
0`; the transform matrices are carried correctly. -/
theorem C6_instance_record_carries_object_id_not_referenced_ids :
    (mkObject 1 1).objectInfo.modelId = 1 ∧ (mkObject 1 1).objectInfo.diffuseId = 1 ∧
    writtenObjectRecords [mkObject 1 1] =
      [{ modelId := 0, diffuseId := 0, modelMatrix := Mat4.ofTransform t0,
         normalMatrix := Mat3.normalOfTransform t0 }] := by decide

/-- C8: for every texture count, `setupDescriptorSets` allocates exactly
`2 * MAX_FRAMES_IN_FLIGHT` descriptor sets (two `addNewSets(_, _, 2)` calls
against a pool built with `maxSets = 2 * MAX_FRAMES_IN_FLIGHT`), the pool's
sampled-image capacity `textureCount * (2 * MAX_FRAMES_IN_FLIGHT)` covers the
`textureCount * MAX_FRAMES_IN_FLIGHT` image-array slots, and the render
layout's texture-array binding 3 is declared with `textureCount`
descriptors. -/
theorem C8_descriptor_pool_and_bindings (textureCount : Nat) :
    (setupDescriptorSets textureCount).allocatedSetCount = 2 * MAX_FRAMES_IN_FLIGHT ∧
    (setupDescriptorSets textureCount).maxSets = 2 * MAX_FRAMES_IN_FLIGHT ∧
    textureCount * MAX_FRAMES_IN_FLIGHT ≤
      poolCapacity (setupDescriptorSets textureCount) VkDescriptorType.sampledImage ∧
    (setupDescriptorSets textureCount).renderBindings.filter
        (fun b => b.binding == 3) =
      [{ descriptorCount := textureCount, type := VkDescriptorType.sampledImage,
         binding := 3 }] := by
  refine ⟨rfl, rfl, ?_, rfl⟩
  have h : poolCapacity (setupDescriptorSets textureCount) VkDescriptorType.sampledImage
      = textureCount * (2 * MAX_FRAMES_IN_FLIGHT) + 0 := rfl
  have h2 : MAX_FRAMES_IN_FLIGHT = 2 := rfl
  rw [h, h2]
  omega

/-- C9 counterexample: in the only reachable zero-instance configuration (an
empty model set — with any model present and zero total instances the
aggregation loop itself throws at `objects.at(i)`), aggregation yields zero
total instances and the vertex/index builders indeed create no buffers, but
`drawScene` then dereferences the missing (`none`) vertex/index buffers —
undefined behavior — instead of skipping; and whenever the buffers do exist
(last conjunct, a one-vertex state) the indexed-indirect draw is recorded
unconditionally, with no zero-instance guard anywhere. -/
theorem C9_counterexample_draw_not_skipped :
    createDrawIndirectCommands ([] : List Model) ([] : List Object) = some ([], 0) ∧
    createVertexBuffer [] = none ∧
    createIndexBuffer [] = none ∧
    drawScene none none 0 0 = none ∧
    drawScene (some [0]) (some [0]) 0 0 =
      some [GpuCommand.bindGraphicsPipeline, GpuCommand.bindDescriptorSet 0,
            GpuCommand.bindVertexBuffer 0, GpuCommand.bindVertexBuffer 1,
            GpuCommand.bindIndexBuffer, GpuCommand.drawIndexedIndirect 0] := by decide

/-- C9 amended: when the merged vertex/index totals are zero the buffer
builders create no buffers at all, but the per-frame draw path contains no
zero-instance short-circuit: `drawScene` fails (null dereference) when
either shared buffer is missing, and records the indexed-indirect draw
unconditionally whenever both exist, whatever the instance total. -/
theorem C9_amended_unconditional_draw (vb ib : List Nat) (n i : Nat) :
    createVertexBuffer [] = none ∧ createIndexBuffer [] = none ∧
    drawScene none (some ib) n i = none ∧
    drawScene (some vb) none n i = none ∧
    GpuCommand.drawIndexedIndirect n ∈ (drawScene (some vb) (some ib) n i).getD [] := by
  refine ⟨rfl, rfl, rfl, rfl, ?_⟩
  simp [drawScene]

/-- C10: `updateSceneUniform` applied to frame slot `i` rewrites only slot
`i`'s uniform buffer and slot `i`'s per-instance buffer: every other frame
slot `j`'s buffers, and the shared vertex, index and indirect-command
buffers, are unchanged. -/
theorem C10_update_writes_only_frame_slot (st : RenderSystemState)
    (objects : List Object) (camera : Camera) (i j : Nat) (hne : j ≠ i) :
    (updateSceneUniform st objects camera i).sceneUniformBuffers[j]? =
      st.sceneUniformBuffers[j]? ∧
    (updateSceneUniform st objects camera i).objectInfoBuffers[j]? =
      st.objectInfoBuffers[j]? ∧
    (updateSceneUniform st objects camera i).globalVertexBuffer =
      st.globalVertexBuffer ∧
    (updateSceneUniform st objects camera i).globalIndexBuffer =
      st.globalIndexBuffer ∧
    (updateSceneUniform st objects camera i).indirectCommandsBuffers =
      st.indirectCommandsBuffers :=
  ⟨List.getElem?_set_ne (Ne.symm hne), List.getElem?_set_ne (Ne.symm hne),
   rfl, rfl, rfl⟩

/-- Witness for C10: updating frame slot 0 of the sample state leaves frame
slot 1 and the shared buffers untouched. -/
theorem C10_update_witness :
    (1 : Nat) ≠ 0 ∧
    ((updateSceneUniform sampleState objectsOne sampleCamera 0).sceneUniformBuffers[1]? =
       sampleState.sceneUniformBuffers[1]? ∧
     (updateSceneUniform sampleState objectsOne sampleCamera 0).objectInfoBuffers[1]? =
       sampleState.objectInfoBuffers[1]? ∧
     (updateSceneUniform sampleState objectsOne sampleCamera 0).globalVertexBuffer =
       sampleState.globalVertexBuffer ∧
     (updateSceneUniform sampleState objectsOne sampleCamera 0).globalIndexBuffer =
       sampleState.globalIndexBuffer ∧
     (updateSceneUniform sampleState objectsOne sampleCamera 0).indirectCommandsBuffers =
       sampleState.indirectCommandsBuffers) :=
  ⟨by decide,
   C10_update_writes_only_frame_slot sampleState objectsOne sampleCamera 0 1 (by decide)⟩

theorem land_two_pow_complement (x k : Nat) (hx : x < 2 ^ 64) (hk : k ≤ 64) :
    x &&& (2 ^ 64 - 2 ^ k) = x / 2 ^ k * 2 ^ k := by
  have hsplit : (64 : Nat) - k + k = 64 := by omega
  have hmask : (2 : Nat) ^ 64 - 2 ^ k = (2 ^ (64 - k) - 1) <<< k := by
    rw [Nat.shiftLeft_eq, Nat.sub_mul, one_mul, ← pow_add, hsplit]
  have hrhs : x / 2 ^ k * 2 ^ k = (x >>> k) <<< k := by
    rw [Nat.shiftRight_eq_div_pow, Nat.shiftLeft_eq]
  rw [hmask, hrhs]
  apply Nat.eq_of_testBit_eq
  intro j
  rw [Nat.testBit_land, Nat.testBit_shiftLeft, Nat.testBit_shiftLeft,
      Nat.testBit_shiftRight, Nat.testBit_two_pow_sub_one]
  by_cases hjk : k ≤ j
  · have hadd : k + (j - k) = j := by omega
    rw [hadd]
    by_cases hj64 : j < 64
    · have h1 : decide (j ≥ k) = true := by
        simp only [decide_eq_true_eq]
        omega
      have h2 : decide (j - k < 64 - k) = true := by
        simp only [decide_eq_true_eq]
        omega
      rw [h1, h2]
      simp
    · have hxbit : x.testBit j = false := by
        apply Nat.testBit_lt_two_pow
        calc x < 2 ^ 64 := hx
          _ ≤ 2 ^ j := Nat.pow_le_pow_right (by omega) (by omega)
      have h2 : decide (j - k < 64 - k) = false := by
        simp only [decide_eq_false_iff_not]
        omega
      rw [hxbit, h2]
      simp
  · have h1 : decide (j ≥ k) = false := by
      simp only [decide_eq_false_iff_not]
      omega
    rw [h1]
    simp

/-- C7: for a device minimum alignment `a = 2^k` (Vulkan guarantees
`minUniformBufferOffsetAlignment` is a power of two) and any raw structure
size `s` with no 64-bit overflow, `padUniformBufferSize` returns
`ceil(s / a) * a = ((s + a - 1) / a) * a`, which is a multiple of `a` and at
least `s`; and for `a = 0` it returns `s` unchanged. -/
theorem C7_padUniformBufferSize_aligned (s a k : Nat)
    (hpow : a = 2 ^ k) (hk : k ≤ 64) (hno : s + a - 1 < 2 ^ 64) :
    padUniformBufferSize a s = (s + a - 1) / a * a ∧
    a ∣ padUniformBufferSize a s ∧
    s ≤ padUniformBufferSize a s ∧
    padUniformBufferSize 0 s = s := by
  subst hpow
  have hpos : 0 < 2 ^ k := Nat.two_pow_pos k
  have hmain : padUniformBufferSize (2 ^ k) s =
      (s + 2 ^ k - 1) / 2 ^ k * 2 ^ k := by
    unfold padUniformBufferSize SIZE_T_MOD
    rw [if_pos hpos]
    exact land_two_pow_complement (s + 2 ^ k - 1) k hno hk
  have hge : s ≤ (s + 2 ^ k - 1) / 2 ^ k * 2 ^ k := by
    have hdm := Nat.div_add_mod (s + 2 ^ k - 1) (2 ^ k)
    have hmod := Nat.mod_lt (s + 2 ^ k - 1) hpos
    rw [Nat.mul_comm]
    generalize hA : (2 : Nat) ^ k = A at hdm hmod hpos ⊢
    generalize hq : (s + A - 1) / A = q at hdm ⊢
    generalize hr : (s + A - 1) % A = r at hdm hmod
    generalize hP : A * q = P at hdm ⊢
    omega
  refine ⟨hmain, ?_, ?_, ?_⟩
  · rw [hmain]
    exact dvd_mul_left (2 ^ k) ((s + 2 ^ k - 1) / 2 ^ k)
  · rw [hmain]
    exact hge
  · unfold padUniformBufferSize
    simp

/-- Witness for C7 at `s = 100`, `a = 64 = 2^6`: the aligned stride is
`ceil(100 / 64) * 64 = 128`. -/
theorem C7_padUniformBufferSize_witness :
    (64 : Nat) = 2 ^ 6 ∧ (6 : Nat) ≤ 64 ∧ (100 : Nat) + 64 - 1 < 2 ^ 64 ∧
    (padUniformBufferSize 64 100 = (100 + 64 - 1) / 64 * 64 ∧
     64 ∣ padUniformBufferSize 64 100 ∧
     100 ≤ padUniformBufferSize 64 100 ∧
     padUniformBufferSize 0 100 = 100) :=
  ⟨by norm_num, by norm_num, by norm_num,
   C7_padUniformBufferSize_aligned 100 64 6 (by norm_num) (by norm_num) (by norm_num)⟩
